import Mathlib

/-!
Verification of the operation polling, firewall, boot-disk, tagging,
timing and teardown logic of the four lab scripts (part1-final.py,
part2-final.py, part3-final.py, clean-up.py), modelled as pure
functions over the JSON records that the Compute Engine API returns.
Each wait loop is modelled as a function over the finite list of
responses the provider would hand back on successive status requests;
consuming the whole list without finding a terminal record means the
loop is still polling.
-/

namespace Lab5

/-- An operation record as returned by globalOperations.get or
zoneOperations.get: a status string and an optional error payload
(presence of the JSON error key is modelled as Option). -/
structure OpRecord where
  status : String
  error : Option String
  deriving DecidableEq

/-- What a poller run did after consuming a finite prefix of responses:
it either returned a Python value (the final record, or None for a bare
return statement), raised an exception carrying the error payload, or
is still polling for more responses. -/
inductive PollOutcome where
  | returns : Option OpRecord → PollOutcome
  | raises : String → PollOutcome
  | polling : PollOutcome
  deriving DecidableEq

/-- Trace of one poller run: the outcome, how many status requests were
issued, and the list of sleep durations in seconds, one entry per pass
through time.sleep (the scripts always sleep exactly 1 second). -/
structure PollTrace where
  outcome : PollOutcome
  requests : Nat
  sleeps : List Nat
  deriving DecidableEq

/-- True exactly when the outcome is an exception being raised. -/
def raisesError : PollOutcome → Bool
  | PollOutcome.raises _ => true
  | _ => false

/-- wait_for_global_operation of part1-final.py (lines 60 to 69): poll
globalOperations.get until status is DONE, raise if the DONE record has
an error key, otherwise return the record; sleep 1 second between
polls. -/
def wait_for_global_operation_part1 : List OpRecord → PollTrace
  | [] => ⟨PollOutcome.polling, 0, []⟩
  | r :: rest =>
    if r.status = "DONE" then
      match r.error with
      | some e => ⟨PollOutcome.raises e, 1, []⟩
      | Option.none => ⟨PollOutcome.returns (some r), 1, []⟩
    else
      let t := wait_for_global_operation_part1 rest
      ⟨t.outcome, t.requests + 1, 1 :: t.sleeps⟩

/-- wait_for_local_operation of part1-final.py (lines 74 to 105): same
loop against zoneOperations.get. -/
def wait_for_local_operation_part1 : List OpRecord → PollTrace
  | [] => ⟨PollOutcome.polling, 0, []⟩
  | r :: rest =>
    if r.status = "DONE" then
      match r.error with
      | some e => ⟨PollOutcome.raises e, 1, []⟩
      | Option.none => ⟨PollOutcome.returns (some r), 1, []⟩
    else
      let t := wait_for_local_operation_part1 rest
      ⟨t.outcome, t.requests + 1, 1 :: t.sleeps⟩

/-- wait_for_local_operation of part2-final.py (lines 22 to 40). -/
def wait_for_local_operation_part2 : List OpRecord → PollTrace
  | [] => ⟨PollOutcome.polling, 0, []⟩
  | r :: rest =>
    if r.status = "DONE" then
      match r.error with
      | some e => ⟨PollOutcome.raises e, 1, []⟩
      | Option.none => ⟨PollOutcome.returns (some r), 1, []⟩
    else
      let t := wait_for_local_operation_part2 rest
      ⟨t.outcome, t.requests + 1, 1 :: t.sleeps⟩

/-- wait_for_global_operation of part3-final.py (lines 72 to 81). -/
def wait_for_global_operation_part3 : List OpRecord → PollTrace
  | [] => ⟨PollOutcome.polling, 0, []⟩
  | r :: rest =>
    if r.status = "DONE" then
      match r.error with
      | some e => ⟨PollOutcome.raises e, 1, []⟩
      | Option.none => ⟨PollOutcome.returns (some r), 1, []⟩
    else
      let t := wait_for_global_operation_part3 rest
      ⟨t.outcome, t.requests + 1, 1 :: t.sleeps⟩

/-- wait_for_local_operation of part3-final.py (lines 84 to 93). -/
def wait_for_local_operation_part3 : List OpRecord → PollTrace
  | [] => ⟨PollOutcome.polling, 0, []⟩
  | r :: rest =>
    if r.status = "DONE" then
      match r.error with
      | some e => ⟨PollOutcome.raises e, 1, []⟩
      | Option.none => ⟨PollOutcome.returns (some r), 1, []⟩
    else
      let t := wait_for_local_operation_part3 rest
      ⟨t.outcome, t.requests + 1, 1 :: t.sleeps⟩

/-- wait_for_local_operation of the VM-1 launcher program generated by
build_vm1_launcher_py in part3-final.py (lines 188 to 195 of that
file): it raises on a DONE record that carries an error, but its
success path is a bare return statement, so it returns None rather
than the record. -/
def wait_for_local_operation_vm1launcher : List OpRecord → PollTrace
  | [] => ⟨PollOutcome.polling, 0, []⟩
  | r :: rest =>
    if r.status = "DONE" then
      match r.error with
      | some e => ⟨PollOutcome.raises e, 1, []⟩
      | Option.none => ⟨PollOutcome.returns Option.none, 1, []⟩
    else
      let t := wait_for_local_operation_vm1launcher rest
      ⟨t.outcome, t.requests + 1, 1 :: t.sleeps⟩

/-- wait_for_operation of clean-up.py (lines 15 to 24): it returns as
soon as status is DONE, with a bare return statement and no inspection
of the error key at all. -/
def wait_for_operation_cleanup : List OpRecord → PollTrace
  | [] => ⟨PollOutcome.polling, 0, []⟩
  | r :: rest =>
    if r.status = "DONE" then
      ⟨PollOutcome.returns Option.none, 1, []⟩
    else
      let t := wait_for_operation_cleanup rest
      ⟨t.outcome, t.requests + 1, 1 :: t.sleeps⟩

/-- wait_for_global_operation of clean-up.py (lines 27 to 36): same
shape as wait_for_operation of that file, against
globalOperations.get. -/
def wait_for_global_operation_cleanup : List OpRecord → PollTrace
  | [] => ⟨PollOutcome.polling, 0, []⟩
  | r :: rest =>
    if r.status = "DONE" then
      ⟨PollOutcome.returns Option.none, 1, []⟩
    else
      let t := wait_for_global_operation_cleanup rest
      ⟨t.outcome, t.requests + 1, 1 :: t.sleeps⟩

/-- The five record-returning pollers of part1, part2 and part3 share
one body; the zonal variant of part1 computes the same trace as the
global one on every response stream. -/
theorem wait_local_part1_eq (rs : List OpRecord) :
    wait_for_local_operation_part1 rs = wait_for_global_operation_part1 rs := by
  induction rs with
  | nil => rfl
  | cons r rest ih =>
    simp only [wait_for_local_operation_part1, wait_for_global_operation_part1, ih]

/-- The part2 zonal poller computes the same trace as the part1 global
poller. -/
theorem wait_local_part2_eq (rs : List OpRecord) :
    wait_for_local_operation_part2 rs = wait_for_global_operation_part1 rs := by
  induction rs with
  | nil => rfl
  | cons r rest ih =>
    simp only [wait_for_local_operation_part2, wait_for_global_operation_part1, ih]

/-- The part3 global poller computes the same trace as the part1 global
poller. -/
theorem wait_global_part3_eq (rs : List OpRecord) :
    wait_for_global_operation_part3 rs = wait_for_global_operation_part1 rs := by
  induction rs with
  | nil => rfl
  | cons r rest ih =>
    simp only [wait_for_global_operation_part3, wait_for_global_operation_part1, ih]

/-- The part3 zonal poller computes the same trace as the part1 global
poller. -/
theorem wait_local_part3_eq (rs : List OpRecord) :
    wait_for_local_operation_part3 rs = wait_for_global_operation_part1 rs := by
  induction rs with
  | nil => rfl
  | cons r rest ih =>
    simp only [wait_for_local_operation_part3, wait_for_global_operation_part1, ih]

/-- The global poller of clean-up.py computes the same trace as its
zonal poller. -/
theorem wait_global_cleanup_eq (rs : List OpRecord) :
    wait_for_global_operation_cleanup rs = wait_for_operation_cleanup rs := by
  induction rs with
  | nil => rfl
  | cons r rest ih =>
    simp only [wait_for_global_operation_cleanup, wait_for_operation_cleanup, ih]

/-- A record-returning poller, run against responses whose first DONE
record has no error key, returns exactly that record, having issued one
request per consumed response and slept 1 second between consecutive
requests. -/
theorem pollerA_done_ok (pre : List OpRecord) (r : OpRecord) (post : List OpRecord)
    (hpre : ∀ x ∈ pre, x.status ≠ "DONE") (hr : r.status = "DONE")
    (he : r.error = Option.none) :
    wait_for_global_operation_part1 (pre ++ r :: post) =
      ⟨PollOutcome.returns (some r), pre.length + 1, List.replicate pre.length 1⟩ := by
  induction pre with
  | nil => simp [wait_for_global_operation_part1, hr, he]
  | cons p ps ih =>
    have hp : ¬ p.status = "DONE" := hpre p (List.mem_cons_self p ps)
    have ih2 := ih (fun x hx => hpre x (List.mem_cons_of_mem p hx))
    simp [wait_for_global_operation_part1, hp, ih2, List.replicate_succ]

/-- A record-returning poller, run against responses whose first DONE
record carries an error key, raises that error payload after one
request per consumed response. -/
theorem pollerA_done_err (pre : List OpRecord) (r : OpRecord) (post : List OpRecord)
    (e : String) (hpre : ∀ x ∈ pre, x.status ≠ "DONE") (hr : r.status = "DONE")
    (he : r.error = some e) :
    wait_for_global_operation_part1 (pre ++ r :: post) =
      ⟨PollOutcome.raises e, pre.length + 1, List.replicate pre.length 1⟩ := by
  induction pre with
  | nil => simp [wait_for_global_operation_part1, hr, he]
  | cons p ps ih =>
    have hp : ¬ p.status = "DONE" := hpre p (List.mem_cons_self p ps)
    have ih2 := ih (fun x hx => hpre x (List.mem_cons_of_mem p hx))
    simp [wait_for_global_operation_part1, hp, ih2, List.replicate_succ]

/-- A record-returning poller, run against responses none of which is
DONE, is still polling after issuing one request per response and
sleeping 1 second after each. -/
theorem pollerA_pending (rs : List OpRecord) (h : ∀ x ∈ rs, x.status ≠ "DONE") :
    wait_for_global_operation_part1 rs =
      ⟨PollOutcome.polling, rs.length, List.replicate rs.length 1⟩ := by
  induction rs with
  | nil => rfl
  | cons r rest ih =>
    have hr : ¬ r.status = "DONE" := h r (List.mem_cons_self r rest)
    have ih2 := ih (fun x hx => h x (List.mem_cons_of_mem r hx))
    simp [wait_for_global_operation_part1, hr, ih2, List.replicate_succ]

/-- The VM-1 launcher poller returns None (not the record) at the first
error-free DONE record. -/
theorem pollerB_done_ok (pre : List OpRecord) (r : OpRecord) (post : List OpRecord)
    (hpre : ∀ x ∈ pre, x.status ≠ "DONE") (hr : r.status = "DONE")
    (he : r.error = Option.none) :
    wait_for_local_operation_vm1launcher (pre ++ r :: post) =
      ⟨PollOutcome.returns Option.none, pre.length + 1, List.replicate pre.length 1⟩ := by
  induction pre with
  | nil => simp [wait_for_local_operation_vm1launcher, hr, he]
  | cons p ps ih =>
    have hp : ¬ p.status = "DONE" := hpre p (List.mem_cons_self p ps)
    have ih2 := ih (fun x hx => hpre x (List.mem_cons_of_mem p hx))
    simp [wait_for_local_operation_vm1launcher, hp, ih2, List.replicate_succ]

/-- The VM-1 launcher poller raises when the first DONE record carries
an error key. -/
theorem pollerB_done_err (pre : List OpRecord) (r : OpRecord) (post : List OpRecord)
    (e : String) (hpre : ∀ x ∈ pre, x.status ≠ "DONE") (hr : r.status = "DONE")
    (he : r.error = some e) :
    wait_for_local_operation_vm1launcher (pre ++ r :: post) =
      ⟨PollOutcome.raises e, pre.length + 1, List.replicate pre.length 1⟩ := by
  induction pre with
  | nil => simp [wait_for_local_operation_vm1launcher, hr, he]
  | cons p ps ih =>
    have hp : ¬ p.status = "DONE" := hpre p (List.mem_cons_self p ps)
    have ih2 := ih (fun x hx => hpre x (List.mem_cons_of_mem p hx))
    simp [wait_for_local_operation_vm1launcher, hp, ih2, List.replicate_succ]

/-- The VM-1 launcher poller keeps polling while no response is DONE. -/
theorem pollerB_pending (rs : List OpRecord) (h : ∀ x ∈ rs, x.status ≠ "DONE") :
    wait_for_local_operation_vm1launcher rs =
      ⟨PollOutcome.polling, rs.length, List.replicate rs.length 1⟩ := by
  induction rs with
  | nil => rfl
  | cons r rest ih =>
    have hr : ¬ r.status = "DONE" := h r (List.mem_cons_self r rest)
    have ih2 := ih (fun x hx => h x (List.mem_cons_of_mem r hx))
    simp [wait_for_local_operation_vm1launcher, hr, ih2, List.replicate_succ]

/-- The clean-up.py poller returns None at the first DONE record,
whatever its error key holds. -/
theorem pollerC_done (pre : List OpRecord) (r : OpRecord) (post : List OpRecord)
    (hpre : ∀ x ∈ pre, x.status ≠ "DONE") (hr : r.status = "DONE") :
    wait_for_operation_cleanup (pre ++ r :: post) =
      ⟨PollOutcome.returns Option.none, pre.length + 1, List.replicate pre.length 1⟩ := by
  induction pre with
  | nil => simp [wait_for_operation_cleanup, hr]
  | cons p ps ih =>
    have hp : ¬ p.status = "DONE" := hpre p (List.mem_cons_self p ps)
    have ih2 := ih (fun x hx => hpre x (List.mem_cons_of_mem p hx))
    simp [wait_for_operation_cleanup, hp, ih2, List.replicate_succ]

/-- The clean-up.py poller keeps polling while no response is DONE. -/
theorem pollerC_pending (rs : List OpRecord) (h : ∀ x ∈ rs, x.status ≠ "DONE") :
    wait_for_operation_cleanup rs =
      ⟨PollOutcome.polling, rs.length, List.replicate rs.length 1⟩ := by
  induction rs with
  | nil => rfl
  | cons r rest ih =>
    have hr : ¬ r.status = "DONE" := h r (List.mem_cons_self r rest)
    have ih2 := ih (fun x hx => h x (List.mem_cons_of_mem r hx))
    simp [wait_for_operation_cleanup, hr, ih2, List.replicate_succ]

/-- C1 counterexample: the zonal poller of clean-up.py, handed a
record with status DONE that carries an error payload, does not raise;
it returns None to its caller, refuting the claim that every wait
function of every script raises in that situation. -/
theorem claim_C1_counterexample :
    raisesError (wait_for_operation_cleanup
      [⟨"DONE", some "QUOTA_EXCEEDED"⟩]).outcome = false := by
  rfl

/-- C1 (amended): when the first DONE record of the response stream
carries an error payload, the pollers of part1-final.py, part2-final.py
and part3-final.py, including the poller embedded in the generated VM-1
launcher program, raise that payload; the two pollers of clean-up.py
instead return None without inspecting the error key. -/
theorem claim_C1 (pre : List OpRecord) (r : OpRecord) (post : List OpRecord)
    (e : String) (hpre : ∀ x ∈ pre, x.status ≠ "DONE") (hr : r.status = "DONE")
    (he : r.error = some e) :
    (wait_for_global_operation_part1 (pre ++ r :: post)).outcome = PollOutcome.raises e ∧
    (wait_for_local_operation_part1 (pre ++ r :: post)).outcome = PollOutcome.raises e ∧
    (wait_for_local_operation_part2 (pre ++ r :: post)).outcome = PollOutcome.raises e ∧
    (wait_for_global_operation_part3 (pre ++ r :: post)).outcome = PollOutcome.raises e ∧
    (wait_for_local_operation_part3 (pre ++ r :: post)).outcome = PollOutcome.raises e ∧
    (wait_for_local_operation_vm1launcher (pre ++ r :: post)).outcome = PollOutcome.raises e ∧
    (wait_for_operation_cleanup (pre ++ r :: post)).outcome =
      PollOutcome.returns Option.none ∧
    (wait_for_global_operation_cleanup (pre ++ r :: post)).outcome =
      PollOutcome.returns Option.none := by
  refine ⟨?_, ?_, ?_, ?_, ?_, ?_, ?_, ?_⟩ <;>
    simp [wait_local_part1_eq, wait_local_part2_eq, wait_global_part3_eq,
      wait_local_part3_eq, wait_global_cleanup_eq,
      pollerA_done_err pre r post e hpre hr he,
      pollerB_done_err pre r post e hpre hr he,
      pollerC_done pre r post hpre hr]

/-- C1 witness: the amended claim instantiated on a stream holding one
RUNNING record followed by a DONE record carrying an error payload. -/
theorem claim_C1_witness :
    (wait_for_global_operation_part1
      [⟨"RUNNING", Option.none⟩, ⟨"DONE", some "NOT_FOUND"⟩]).outcome =
        PollOutcome.raises "NOT_FOUND" ∧
    (wait_for_local_operation_part1
      [⟨"RUNNING", Option.none⟩, ⟨"DONE", some "NOT_FOUND"⟩]).outcome =
        PollOutcome.raises "NOT_FOUND" ∧
    (wait_for_local_operation_part2
      [⟨"RUNNING", Option.none⟩, ⟨"DONE", some "NOT_FOUND"⟩]).outcome =
        PollOutcome.raises "NOT_FOUND" ∧
    (wait_for_global_operation_part3
      [⟨"RUNNING", Option.none⟩, ⟨"DONE", some "NOT_FOUND"⟩]).outcome =
        PollOutcome.raises "NOT_FOUND" ∧
    (wait_for_local_operation_part3
      [⟨"RUNNING", Option.none⟩, ⟨"DONE", some "NOT_FOUND"⟩]).outcome =
        PollOutcome.raises "NOT_FOUND" ∧
    (wait_for_local_operation_vm1launcher
      [⟨"RUNNING", Option.none⟩, ⟨"DONE", some "NOT_FOUND"⟩]).outcome =
        PollOutcome.raises "NOT_FOUND" ∧
    (wait_for_operation_cleanup
      [⟨"RUNNING", Option.none⟩, ⟨"DONE", some "NOT_FOUND"⟩]).outcome =
        PollOutcome.returns Option.none ∧
    (wait_for_global_operation_cleanup
      [⟨"RUNNING", Option.none⟩, ⟨"DONE", some "NOT_FOUND"⟩]).outcome =
        PollOutcome.returns Option.none := by
  exact claim_C1 [⟨"RUNNING", Option.none⟩] ⟨"DONE", some "NOT_FOUND"⟩ []
    "NOT_FOUND" (by decide) rfl rfl

/-- C2 counterexample: the zonal poller of clean-up.py, handed a first
response with status DONE and no error key, does not return that
record: its success path is a bare return statement, so it returns
None, refuting the claim for that poller. -/
theorem claim_C2_counterexample :
    (wait_for_operation_cleanup [⟨"DONE", Option.none⟩]).outcome ≠
      PollOutcome.returns (some ⟨"DONE", Option.none⟩) := by
  decide

/-- C2 (amended): on the first polled record with status DONE and no
error key, every poller returns control exactly once, having issued one
status request per consumed response and none after the DONE one; the
pollers of part1-final.py, part2-final.py and part3-final.py return
that record, while the generated VM-1 launcher poller and the two
clean-up.py pollers return None. -/
theorem claim_C2 (pre : List OpRecord) (r : OpRecord) (post : List OpRecord)
    (hpre : ∀ x ∈ pre, x.status ≠ "DONE") (hr : r.status = "DONE")
    (he : r.error = Option.none) :
    wait_for_global_operation_part1 (pre ++ r :: post) =
      ⟨PollOutcome.returns (some r), pre.length + 1, List.replicate pre.length 1⟩ ∧
    wait_for_local_operation_part1 (pre ++ r :: post) =
      ⟨PollOutcome.returns (some r), pre.length + 1, List.replicate pre.length 1⟩ ∧
    wait_for_local_operation_part2 (pre ++ r :: post) =
      ⟨PollOutcome.returns (some r), pre.length + 1, List.replicate pre.length 1⟩ ∧
    wait_for_global_operation_part3 (pre ++ r :: post) =
      ⟨PollOutcome.returns (some r), pre.length + 1, List.replicate pre.length 1⟩ ∧
    wait_for_local_operation_part3 (pre ++ r :: post) =
      ⟨PollOutcome.returns (some r), pre.length + 1, List.replicate pre.length 1⟩ ∧
    wait_for_local_operation_vm1launcher (pre ++ r :: post) =
      ⟨PollOutcome.returns Option.none, pre.length + 1, List.replicate pre.length 1⟩ ∧
    wait_for_operation_cleanup (pre ++ r :: post) =
      ⟨PollOutcome.returns Option.none, pre.length + 1, List.replicate pre.length 1⟩ ∧
    wait_for_global_operation_cleanup (pre ++ r :: post) =
      ⟨PollOutcome.returns Option.none, pre.length + 1, List.replicate pre.length 1⟩ := by
  refine ⟨?_, ?_, ?_, ?_, ?_, ?_, ?_, ?_⟩ <;>
    simp [wait_local_part1_eq, wait_local_part2_eq, wait_global_part3_eq,
      wait_local_part3_eq, wait_global_cleanup_eq,
      pollerA_done_ok pre r post hpre hr he,
      pollerB_done_ok pre r post hpre hr he,
      pollerC_done pre r post hpre hr]

/-- C2 witness: the amended claim instantiated on a stream holding one
PENDING record followed by an error-free DONE record: two requests in
total, one 1-second sleep, and the DONE record (or None) returned. -/
theorem claim_C2_witness :
    wait_for_global_operation_part1
      [⟨"PENDING", Option.none⟩, ⟨"DONE", Option.none⟩] =
      ⟨PollOutcome.returns (some ⟨"DONE", Option.none⟩), 2, [1]⟩ ∧
    wait_for_local_operation_part1
      [⟨"PENDING", Option.none⟩, ⟨"DONE", Option.none⟩] =
      ⟨PollOutcome.returns (some ⟨"DONE", Option.none⟩), 2, [1]⟩ ∧
    wait_for_local_operation_part2
      [⟨"PENDING", Option.none⟩, ⟨"DONE", Option.none⟩] =
      ⟨PollOutcome.returns (some ⟨"DONE", Option.none⟩), 2, [1]⟩ ∧
    wait_for_global_operation_part3
      [⟨"PENDING", Option.none⟩, ⟨"DONE", Option.none⟩] =
      ⟨PollOutcome.returns (some ⟨"DONE", Option.none⟩), 2, [1]⟩ ∧
    wait_for_local_operation_part3
      [⟨"PENDING", Option.none⟩, ⟨"DONE", Option.none⟩] =
      ⟨PollOutcome.returns (some ⟨"DONE", Option.none⟩), 2, [1]⟩ ∧
    wait_for_local_operation_vm1launcher
      [⟨"PENDING", Option.none⟩, ⟨"DONE", Option.none⟩] =
      ⟨PollOutcome.returns Option.none, 2, [1]⟩ ∧
    wait_for_operation_cleanup
      [⟨"PENDING", Option.none⟩, ⟨"DONE", Option.none⟩] =
      ⟨PollOutcome.returns Option.none, 2, [1]⟩ ∧
    wait_for_global_operation_cleanup
      [⟨"PENDING", Option.none⟩, ⟨"DONE", Option.none⟩] =
      ⟨PollOutcome.returns Option.none, 2, [1]⟩ := by
  exact claim_C2 [⟨"PENDING", Option.none⟩] ⟨"DONE", Option.none⟩ []
    (by decide) rfl rfl

/-- C3 (confirmed): on a stream of responses none of which has status
DONE, every poller in the corpus is still polling after consuming the
whole stream: it issued one status request per response, slept exactly
1 second after each (no backoff, no jitter), and returned to no
caller. The statement holds for streams of every length, so on an
unending supply of non-DONE responses the loop never terminates and
there is no maximum retry count. -/
theorem claim_C3 (rs : List OpRecord) (h : ∀ x ∈ rs, x.status ≠ "DONE") :
    wait_for_global_operation_part1 rs =
      ⟨PollOutcome.polling, rs.length, List.replicate rs.length 1⟩ ∧
    wait_for_local_operation_part1 rs =
      ⟨PollOutcome.polling, rs.length, List.replicate rs.length 1⟩ ∧
    wait_for_local_operation_part2 rs =
      ⟨PollOutcome.polling, rs.length, List.replicate rs.length 1⟩ ∧
    wait_for_global_operation_part3 rs =
      ⟨PollOutcome.polling, rs.length, List.replicate rs.length 1⟩ ∧
    wait_for_local_operation_part3 rs =
      ⟨PollOutcome.polling, rs.length, List.replicate rs.length 1⟩ ∧
    wait_for_local_operation_vm1launcher rs =
      ⟨PollOutcome.polling, rs.length, List.replicate rs.length 1⟩ ∧
    wait_for_operation_cleanup rs =
      ⟨PollOutcome.polling, rs.length, List.replicate rs.length 1⟩ ∧
    wait_for_global_operation_cleanup rs =
      ⟨PollOutcome.polling, rs.length, List.replicate rs.length 1⟩ := by
  refine ⟨?_, ?_, ?_, ?_, ?_, ?_, ?_, ?_⟩ <;>
    simp [wait_local_part1_eq, wait_local_part2_eq, wait_global_part3_eq,
      wait_local_part3_eq, wait_global_cleanup_eq,
      pollerA_pending rs h, pollerB_pending rs h, pollerC_pending rs h]

/-- C3 witness: the claim instantiated on a stream of two non-DONE
records: every poller is still polling after 2 requests and two
1-second sleeps. -/
theorem claim_C3_witness :
    wait_for_global_operation_part1
      [⟨"PENDING", Option.none⟩, ⟨"RUNNING", Option.none⟩] =
      ⟨PollOutcome.polling, 2, [1, 1]⟩ ∧
    wait_for_local_operation_part1
      [⟨"PENDING", Option.none⟩, ⟨"RUNNING", Option.none⟩] =
      ⟨PollOutcome.polling, 2, [1, 1]⟩ ∧
    wait_for_local_operation_part2
      [⟨"PENDING", Option.none⟩, ⟨"RUNNING", Option.none⟩] =
      ⟨PollOutcome.polling, 2, [1, 1]⟩ ∧
    wait_for_global_operation_part3
      [⟨"PENDING", Option.none⟩, ⟨"RUNNING", Option.none⟩] =
      ⟨PollOutcome.polling, 2, [1, 1]⟩ ∧
    wait_for_local_operation_part3
      [⟨"PENDING", Option.none⟩, ⟨"RUNNING", Option.none⟩] =
      ⟨PollOutcome.polling, 2, [1, 1]⟩ ∧
    wait_for_local_operation_vm1launcher
      [⟨"PENDING", Option.none⟩, ⟨"RUNNING", Option.none⟩] =
      ⟨PollOutcome.polling, 2, [1, 1]⟩ ∧
    wait_for_operation_cleanup
      [⟨"PENDING", Option.none⟩, ⟨"RUNNING", Option.none⟩] =
      ⟨PollOutcome.polling, 2, [1, 1]⟩ ∧
    wait_for_global_operation_cleanup
      [⟨"PENDING", Option.none⟩, ⟨"RUNNING", Option.none⟩] =
      ⟨PollOutcome.polling, 2, [1, 1]⟩ := by
  exact claim_C3 [⟨"PENDING", Option.none⟩, ⟨"RUNNING", Option.none⟩] (by decide)

/-- One firewall rule of the firewalls.list response; the scripts only
read its name key, which may be absent. -/
structure FirewallRule where
  name : Option String
  deriving DecidableEq

/-- One entry of the allowed list of a firewall insert body. -/
structure FirewallAllowed where
  IPProtocol : String
  ports : List String
  deriving DecidableEq

/-- The body handed to firewalls.insert. -/
structure FirewallBody where
  name : String
  network : String
  direction : String
  priority : Nat
  sourceRanges : List String
  targetTags : List String
  allowed : List FirewallAllowed
  deriving DecidableEq

/-- firewall_rule_exists of part1-final.py (lines 109 to 114) and
part3-final.py (lines 97 to 102), identical in both files: scan the
items of the firewalls.list response for a rule with the given name. -/
def firewall_rule_exists (items : List FirewallRule) (name : String) : Bool :=
  items.any (fun rule => rule.name == some name)

/-- The insert body built by ensure_allow_5000_firewall. -/
def allow_5000_body (network_tag : String) : FirewallBody :=
  { name := "allow-5000"
    network := "global/networks/default"
    direction := "INGRESS"
    priority := 1000
    sourceRanges := ["0.0.0.0/0"]
    targetTags := [network_tag]
    allowed := [⟨"tcp", ["5000"]⟩] }

/-- ensure_allow_5000_firewall of part1-final.py (lines 117 to 137) and
part3-final.py (lines 105 to 123), identical logic in both files,
modelled as the list of firewalls.insert bodies it submits given the
items of the firewalls.list response: none when a rule named
allow-5000 already exists, otherwise exactly the one body above
(followed in the script by a global-operation wait, modelled by the
pollers earlier in this file). -/
def ensure_allow_5000_firewall (items : List FirewallRule)
    (network_tag : String) : List FirewallBody :=
  if firewall_rule_exists items "allow-5000" then []
  else [allow_5000_body network_tag]

/-- C4 (confirmed): if some listed rule is named allow-5000 the ensurer
submits no insert call; if no listed rule has that name it submits
exactly one insert call, whose body allows tcp port 5000 on direction
INGRESS. -/
theorem claim_C4 (items : List FirewallRule) (network_tag : String) :
    ((∃ rule ∈ items, rule.name = some "allow-5000") →
      ensure_allow_5000_firewall items network_tag = []) ∧
    ((∀ rule ∈ items, rule.name ≠ some "allow-5000") →
      ∃ b, ensure_allow_5000_firewall items network_tag = [b] ∧
        b.allowed = [⟨"tcp", ["5000"]⟩] ∧ b.direction = "INGRESS") := by
  constructor
  · rintro ⟨rule, hmem, hname⟩
    have hex : firewall_rule_exists items "allow-5000" = true := by
      simp only [firewall_rule_exists, List.any_eq_true]
      exact ⟨rule, hmem, by simp [hname]⟩
    simp [ensure_allow_5000_firewall, hex]
  · intro hall
    have hex : firewall_rule_exists items "allow-5000" = false := by
      simp only [firewall_rule_exists, List.any_eq_false]
      intro rule hmem
      simp [hall rule hmem]
    exact ⟨allow_5000_body network_tag,
      by simp [ensure_allow_5000_firewall, hex], rfl, rfl⟩

/-- C4 witness: with a rule list containing allow-5000 no insert body
is produced; with a rule list holding only a differently named rule,
exactly one insert body is produced, allowing tcp 5000 on INGRESS. -/
theorem claim_C4_witness :
    ensure_allow_5000_firewall [⟨some "allow-5000"⟩] "allow-5000" = [] ∧
    ∃ b, ensure_allow_5000_firewall [⟨some "default-allow-ssh"⟩] "allow-5000" = [b] ∧
      b.allowed = [⟨"tcp", ["5000"]⟩] ∧ b.direction = "INGRESS" := by
  exact ⟨(claim_C4 [⟨some "allow-5000"⟩] "allow-5000").1 (by decide),
         (claim_C4 [⟨some "default-allow-ssh"⟩] "allow-5000").2 (by decide)⟩

/-- One attached disk of an instance record: the boot key (an absent
key is modelled as false, matching the Python truthiness test on
d.get("boot")) and the optional source URL. -/
structure Disk where
  boot : Bool
  source : Option String
  deriving DecidableEq

/-- listStartsWith pat l is true when pat is an initial segment of l. -/
def listStartsWith : List Char → List Char → Bool
  | [], _ => true
  | _ :: _, [] => false
  | p :: ps, c :: cs => p == c && listStartsWith ps cs

/-- Leftmost occurrence of sep in l: the segment before it and the
remainder after it, or none when sep does not occur in l. -/
def splitFirst (sep : List Char) : List Char → Option (List Char × List Char)
  | [] => Option.none
  | c :: cs =>
    if listStartsWith sep (c :: cs) then some ([], (c :: cs).drop sep.length)
    else
      match splitFirst sep cs with
      | Option.none => Option.none
      | some (pre, post) => some (c :: pre, post)

/-- All segments of l split on sep, scanning left to right over
non-overlapping occurrences as the Python split method does; the fuel
argument bounds the number of separator occurrences, and any fuel of
at least the length of l is enough for a non-empty sep. -/
def splitOnFuel (sep : List Char) : Nat → List Char → List (List Char)
  | 0, l => [l]
  | fuel + 1, l =>
    match splitFirst sep l with
    | Option.none => [l]
    | some (pre, post) => pre :: splitOnFuel sep fuel post

/-- The Python expression source.split("/disks/")[-1]: the last
segment of the split of s on the separator /disks/ (the split of a
string is never the empty list, so the default is never taken). -/
def pyLastSegmentDisks (s : String) : String :=
  String.mk ((splitOnFuel "/disks/".toList (s.toList.length + 1) s.toList).getLastD [])

/-- get_boot_disk_name of part2-final.py (lines 45 to 71): read the
disks of the instance record, fail on an empty list, pick the first
disk whose boot key is truthy (falling back to the first disk when
none is), fail when its source is absent or empty, and otherwise
return the segment of the source URL after /disks/. The two error
messages of the source are reproduced without their inner quote
marks. -/
def get_boot_disk_name (instance_name : String) (disks : List Disk) :
    Except String String :=
  match disks with
  | [] => Except.error ("No disks found on instance " ++ instance_name)
  | d0 :: rest =>
    let boot :=
      match (d0 :: rest).find? (fun d => d.boot) with
      | some d => d
      | Option.none => d0
    match boot.source with
    | Option.none => Except.error "Could not find boot disk source URL on instance."
    | some s =>
      if s = "" then Except.error "Could not find boot disk source URL on instance."
      else Except.ok (pyLastSegmentDisks s)

/-- Scanning for the first boot-flagged disk skips every disk whose
boot key is false. -/
theorem find_boot_append (pre rest : List Disk) (h : ∀ x ∈ pre, x.boot = false) :
    (pre ++ rest).find? (fun d => d.boot) = rest.find? (fun d => d.boot) := by
  induction pre with
  | nil => rfl
  | cons p ps ih =>
    have hp : p.boot = false := h p (List.mem_cons_self p ps)
    have ih2 := ih (fun x hx => h x (List.mem_cons_of_mem p hx))
    simp [List.find?_cons, hp, ih2]

/-- C5 (confirmed): boot-disk resolution returns the segment after
/disks/ of the source URL of the first boot-flagged disk, and of the
first disk when no disk is boot-flagged; on the two disk lists of the
spec it resolves d2 and d1 respectively. -/
theorem claim_C5 :
    (∀ (name : String) (pre : List Disk) (d : Disk) (post : List Disk) (s : String),
      (∀ x ∈ pre, x.boot = false) → d.boot = true → d.source = some s → s ≠ "" →
      get_boot_disk_name name (pre ++ d :: post) = Except.ok (pyLastSegmentDisks s)) ∧
    (∀ (name : String) (d0 : Disk) (rest : List Disk) (s : String),
      (∀ x ∈ d0 :: rest, x.boot = false) → d0.source = some s → s ≠ "" →
      get_boot_disk_name name (d0 :: rest) = Except.ok (pyLastSegmentDisks s)) ∧
    get_boot_disk_name "blog-instance"
      [⟨false, some "projects/p/zones/z/disks/d1"⟩,
       ⟨true, some "projects/p/zones/z/disks/d2"⟩] = Except.ok "d2" ∧
    get_boot_disk_name "blog-instance"
      [⟨false, some "projects/p/zones/z/disks/d1"⟩,
       ⟨false, some "projects/p/zones/z/disks/d2"⟩] = Except.ok "d1" := by
  refine ⟨?_, ?_, ?_, ?_⟩
  · intro name pre d post s hpre hd hs hne
    have hfind : (pre ++ d :: post).find? (fun x => x.boot) = some d := by
      rw [find_boot_append pre _ hpre]
      simp [List.find?_cons, hd]
    cases pre with
    | nil =>
      simp only [List.nil_append] at hfind ⊢
      simp [get_boot_disk_name, hfind, hs, hne]
    | cons p ps =>
      simp only [List.cons_append] at hfind ⊢
      simp [get_boot_disk_name, hfind, hs, hne]
  · intro name d0 rest s hall hs hne
    have hfind : (d0 :: rest).find? (fun x => x.boot) = Option.none := by
      apply List.find?_eq_none.mpr
      intro x hx
      simp [hall x hx]
    simp [get_boot_disk_name, hfind, hs, hne]
  · rfl
  · rfl

/-- C5 witness: the general clauses instantiated on a two-disk list
whose second disk is boot-flagged, and on a one-disk list with no boot
flag. -/
theorem claim_C5_witness :
    get_boot_disk_name "blog-instance"
      [⟨false, some "zones/z/disks/d1"⟩, ⟨true, some "zones/z/disks/d2"⟩] =
      Except.ok (pyLastSegmentDisks "zones/z/disks/d2") ∧
    get_boot_disk_name "blog-instance" [⟨false, some "zones/z/disks/d1"⟩] =
      Except.ok (pyLastSegmentDisks "zones/z/disks/d1") := by
  exact ⟨claim_C5.1 "blog-instance" [⟨false, some "zones/z/disks/d1"⟩]
      ⟨true, some "zones/z/disks/d2"⟩ [] "zones/z/disks/d2" (by decide) rfl rfl (by decide),
    claim_C5.2.1 "blog-instance" ⟨false, some "zones/z/disks/d1"⟩ [] "zones/z/disks/d1"
      (by decide) rfl (by decide)⟩

/-- C9 (confirmed): boot-disk resolution fails with a descriptive local
error on an empty disk list, and when the resolved boot disk has an
absent (or empty) source URL. -/
theorem claim_C9 :
    (∀ name : String,
      get_boot_disk_name name [] =
        Except.error ("No disks found on instance " ++ name)) ∧
    (∀ (name : String) (pre : List Disk) (d : Disk) (post : List Disk),
      (∀ x ∈ pre, x.boot = false) → d.boot = true → d.source = Option.none →
      get_boot_disk_name name (pre ++ d :: post) =
        Except.error "Could not find boot disk source URL on instance.") ∧
    (∀ (name : String) (d0 : Disk) (rest : List Disk),
      (∀ x ∈ d0 :: rest, x.boot = false) → d0.source = Option.none →
      get_boot_disk_name name (d0 :: rest) =
        Except.error "Could not find boot disk source URL on instance.") ∧
    (∀ (name : String) (pre : List Disk) (d : Disk) (post : List Disk),
      (∀ x ∈ pre, x.boot = false) → d.boot = true → d.source = some "" →
      get_boot_disk_name name (pre ++ d :: post) =
        Except.error "Could not find boot disk source URL on instance.") := by
  refine ⟨fun name => rfl, ?_, ?_, ?_⟩
  · intro name pre d post hpre hd hs
    have hfind : (pre ++ d :: post).find? (fun x => x.boot) = some d := by
      rw [find_boot_append pre _ hpre]
      simp [List.find?_cons, hd]
    cases pre with
    | nil =>
      simp only [List.nil_append] at hfind ⊢
      simp [get_boot_disk_name, hfind, hs]
    | cons p ps =>
      simp only [List.cons_append] at hfind ⊢
      simp [get_boot_disk_name, hfind, hs]
  · intro name d0 rest hall hs
    have hfind : (d0 :: rest).find? (fun x => x.boot) = Option.none := by
      apply List.find?_eq_none.mpr
      intro x hx
      simp [hall x hx]
    simp [get_boot_disk_name, hfind, hs]
  · intro name pre d post hpre hd hs
    have hfind : (pre ++ d :: post).find? (fun x => x.boot) = some d := by
      rw [find_boot_append pre _ hpre]
      simp [List.find?_cons, hd]
    cases pre with
    | nil =>
      simp only [List.nil_append] at hfind ⊢
      simp [get_boot_disk_name, hfind, hs]
    | cons p ps =>
      simp only [List.cons_append] at hfind ⊢
      simp [get_boot_disk_name, hfind, hs]

/-- C9 witness: the error clauses instantiated on an empty disk list
and on a one-disk list whose boot disk has no source URL. -/
theorem claim_C9_witness :
    get_boot_disk_name "blog-instance" [] =
      Except.error "No disks found on instance blog-instance" ∧
    get_boot_disk_name "blog-instance" [⟨true, Option.none⟩] =
      Except.error "Could not find boot disk source URL on instance." := by
  exact ⟨claim_C9.1 "blog-instance",
    claim_C9.2.1 "blog-instance" [] ⟨true, Option.none⟩ [] (by decide) rfl rfl⟩

/-- The tags object of an instance record: its items and the
provider-issued concurrency-control fingerprint (an absent key is
modelled as Option). -/
structure InstanceTags where
  items : List String
  fingerprint : Option String
  deriving DecidableEq

/-- The slice of an instances.get response that set_instance_tags
reads: the optional tags object. -/
structure InstanceRecord where
  tags : Option InstanceTags
  deriving DecidableEq

/-- The body handed to instances.setTags. -/
structure TagBody where
  items : List String
  fingerprint : Option String
  deriving DecidableEq

/-- The API calls set_instance_tags performs, in order. -/
inductive ApiCall where
  | instancesGet (instName : String)
  | instancesSetTags (instName : String) (body : TagBody)
  deriving DecidableEq

/-- The fingerprint read from an instance record: its tags object,
defaulting to an empty dict, then the fingerprint key of that object,
or None when either is absent. -/
def instanceFingerprint (inst : InstanceRecord) : Option String :=
  match inst.tags with
  | some t => t.fingerprint
  | Option.none => Option.none

/-- set_instance_tags of part1-final.py (lines 161 to 168), modelled as
the sequence of API calls it performs, given the instance record that
its instances.get call returns, paired with the body it submits. -/
def set_instance_tags (inst : InstanceRecord) (instName : String)
    (tags : List String) : List ApiCall × TagBody :=
  let fingerprint := instanceFingerprint inst
  let body : TagBody := ⟨tags, fingerprint⟩
  ([ApiCall.instancesGet instName, ApiCall.instancesSetTags instName body], body)

/-- C6 (confirmed): the body submitted to setTags holds the full
desired tag list as its items and the fingerprint read by the
instances.get call, and the call trace is exactly that get followed by
the setTags call, with no other call between them. -/
theorem claim_C6 (inst : InstanceRecord) (instName : String) (tags : List String) :
    (set_instance_tags inst instName tags).2.items = tags ∧
    (set_instance_tags inst instName tags).2.fingerprint = instanceFingerprint inst ∧
    (set_instance_tags inst instName tags).1 =
      [ApiCall.instancesGet instName,
       ApiCall.instancesSetTags instName (set_instance_tags inst instName tags).2] :=
  ⟨rfl, rfl, rfl⟩

/-- How one teardown deletion of clean-up.py ends. -/
inductive TeardownOutcome where
  | deleted
  | alreadyDeleted
  | reraised (status : Nat)
  | stillPolling
  deriving DecidableEq

/-- delete_instance of clean-up.py (lines 39 to 49): deleteResp is the
result of the instances.delete call (ok carries the operation record,
error carries the HTTP status of the raised HttpError) and polls feeds
the subsequent wait_for_operation call. The result pairs the outcome
with the number of poll requests issued: a 404 is logged as already
deleted without raising, any other HttpError is re-raised, and a
successful delete is followed by polling the operation to DONE. -/
def delete_instance (deleteResp : Except Nat OpRecord)
    (polls : List OpRecord) : TeardownOutcome × Nat :=
  match deleteResp with
  | Except.ok _ =>
    let t := wait_for_operation_cleanup polls
    match t.outcome with
    | PollOutcome.returns _ => (TeardownOutcome.deleted, t.requests)
    | _ => (TeardownOutcome.stillPolling, t.requests)
  | Except.error status =>
    if status = 404 then (TeardownOutcome.alreadyDeleted, 0)
    else (TeardownOutcome.reraised status, 0)

/-- delete_snapshot of clean-up.py (lines 52 to 62): same handling
around snapshots.delete and wait_for_global_operation. -/
def delete_snapshot (deleteResp : Except Nat OpRecord)
    (polls : List OpRecord) : TeardownOutcome × Nat :=
  match deleteResp with
  | Except.ok _ =>
    let t := wait_for_global_operation_cleanup polls
    match t.outcome with
    | PollOutcome.returns _ => (TeardownOutcome.deleted, t.requests)
    | _ => (TeardownOutcome.stillPolling, t.requests)
  | Except.error status =>
    if status = 404 then (TeardownOutcome.alreadyDeleted, 0)
    else (TeardownOutcome.reraised status, 0)

/-- C7 (confirmed): for both teardown deletions, a delete request
failing with HTTP 404 completes without raising as already deleted, a
delete request failing with any other HTTP status is re-raised, and a
successful delete request is followed by polling the resulting
operation to its first DONE response. -/
theorem claim_C7 :
    (∀ polls : List OpRecord,
      delete_instance (Except.error 404) polls = (TeardownOutcome.alreadyDeleted, 0)) ∧
    (∀ (status : Nat) (polls : List OpRecord), status ≠ 404 →
      delete_instance (Except.error status) polls = (TeardownOutcome.reraised status, 0)) ∧
    (∀ (op : OpRecord) (pre : List OpRecord) (r : OpRecord) (post : List OpRecord),
      (∀ x ∈ pre, x.status ≠ "DONE") → r.status = "DONE" →
      delete_instance (Except.ok op) (pre ++ r :: post) =
        (TeardownOutcome.deleted, pre.length + 1)) ∧
    (∀ polls : List OpRecord,
      delete_snapshot (Except.error 404) polls = (TeardownOutcome.alreadyDeleted, 0)) ∧
    (∀ (status : Nat) (polls : List OpRecord), status ≠ 404 →
      delete_snapshot (Except.error status) polls = (TeardownOutcome.reraised status, 0)) ∧
    (∀ (op : OpRecord) (pre : List OpRecord) (r : OpRecord) (post : List OpRecord),
      (∀ x ∈ pre, x.status ≠ "DONE") → r.status = "DONE" →
      delete_snapshot (Except.ok op) (pre ++ r :: post) =
        (TeardownOutcome.deleted, pre.length + 1)) := by
  refine ⟨fun polls => rfl, ?_, ?_, fun polls => rfl, ?_, ?_⟩
  · intro status polls hne
    simp [delete_instance, hne]
  · intro op pre r post hpre hr
    simp [delete_instance, pollerC_done pre r post hpre hr]
  · intro status polls hne
    simp [delete_snapshot, hne]
  · intro op pre r post hpre hr
    simp [delete_snapshot, wait_global_cleanup_eq, pollerC_done pre r post hpre hr]

/-- C7 witness: a simulated 404 on deleting an absent instance, a
simulated 500 being re-raised, and a successful delete polled to DONE
on the second status request. -/
theorem claim_C7_witness :
    delete_instance (Except.error 404) [] = (TeardownOutcome.alreadyDeleted, 0) ∧
    delete_instance (Except.error 500) [] = (TeardownOutcome.reraised 500, 0) ∧
    delete_instance (Except.ok ⟨"RUNNING", Option.none⟩)
      [⟨"RUNNING", Option.none⟩, ⟨"DONE", Option.none⟩] =
      (TeardownOutcome.deleted, 2) ∧
    delete_snapshot (Except.error 404) [] = (TeardownOutcome.alreadyDeleted, 0) ∧
    delete_snapshot (Except.error 500) [] = (TeardownOutcome.reraised 500, 0) ∧
    delete_snapshot (Except.ok ⟨"RUNNING", Option.none⟩)
      [⟨"RUNNING", Option.none⟩, ⟨"DONE", Option.none⟩] =
      (TeardownOutcome.deleted, 2) := by
  exact ⟨claim_C7.1 [],
    claim_C7.2.1 500 [] (by decide),
    claim_C7.2.2.1 ⟨"RUNNING", Option.none⟩ [⟨"RUNNING", Option.none⟩]
      ⟨"DONE", Option.none⟩ [] (by decide) rfl,
    claim_C7.2.2.2.1 [],
    claim_C7.2.2.2.2.1 500 [] (by decide),
    claim_C7.2.2.2.2.2 ⟨"RUNNING", Option.none⟩ [⟨"RUNNING", Option.none⟩]
      ⟨"DONE", Option.none⟩ [] (by decide) rfl⟩

/-- The Python lower method as used on the confirmation string: the
comparison against yes only depends on the ASCII range, where the two
lowerings agree. -/
def pyLower (s : String) : String :=
  String.mk (s.toList.map Char.toLower)

/-- One cloud-mutating API call of the teardown script. -/
inductive CleanupCall where
  | deleteInstance (name : String)
  | deleteSnapshot (name : String)
  deriving DecidableEq

/-- The clone_names list of main of clean-up.py. -/
def cleanup_clone_names (base : String) : List String :=
  [base ++ "-clone-1", base ++ "-clone-2", base ++ "-clone-3"]

/-- main of clean-up.py (lines 64 to 97), modelled as the list of
cloud-mutating API calls it issues given the confirmation string read
from input: none when the lower-cased confirmation differs from yes
(the script prints an abort message and returns), otherwise the three
clone deletions, then the base instance deletion, then the snapshot
deletion. -/
def cleanup_main_calls (base confirm : String) : List CleanupCall :=
  if pyLower confirm ≠ "yes" then []
  else
    (cleanup_clone_names base).map CleanupCall.deleteInstance ++
      [CleanupCall.deleteInstance base,
       CleanupCall.deleteSnapshot ("base-snapshot-" ++ base)]

/-- C10 (confirmed): when the lower-cased confirmation is not exactly
yes, the teardown main issues no delete call and no other
cloud-mutating call; when it is (as for the inputs YES and Yes), main
proceeds to delete the three clones, the base instance and the
snapshot. -/
theorem claim_C10 :
    (∀ base confirm : String, pyLower confirm ≠ "yes" →
      cleanup_main_calls base confirm = []) ∧
    (∀ base confirm : String, pyLower confirm = "yes" →
      cleanup_main_calls base confirm =
        [CleanupCall.deleteInstance (base ++ "-clone-1"),
         CleanupCall.deleteInstance (base ++ "-clone-2"),
         CleanupCall.deleteInstance (base ++ "-clone-3"),
         CleanupCall.deleteInstance base,
         CleanupCall.deleteSnapshot ("base-snapshot-" ++ base)]) ∧
    pyLower "YES" = "yes" ∧ pyLower "Yes" = "yes" := by
  refine ⟨?_, ?_, rfl, rfl⟩
  · intro base confirm h
    simp [cleanup_main_calls, h]
  · intro base confirm h
    simp [cleanup_main_calls, h, cleanup_clone_names]

/-- C10 witness: the confirmation no aborts with no cloud-mutating
call, while the confirmation YES proceeds to the five deletions. -/
theorem claim_C10_witness :
    cleanup_main_calls "blog-instance" "no" = [] ∧
    cleanup_main_calls "blog-instance" "YES" =
      [CleanupCall.deleteInstance ("blog-instance" ++ "-clone-1"),
       CleanupCall.deleteInstance ("blog-instance" ++ "-clone-2"),
       CleanupCall.deleteInstance ("blog-instance" ++ "-clone-3"),
       CleanupCall.deleteInstance "blog-instance",
       CleanupCall.deleteSnapshot ("base-snapshot-" ++ "blog-instance")] := by
  exact ⟨claim_C10.1 "blog-instance" "no" (by decide),
         claim_C10.2.1 "blog-instance" "YES" (by decide)⟩

/-- One timing record returned by time_create_clone. -/
structure TimingRecord where
  instanceName : String
  real_seconds : ℚ
  user_seconds : ℚ
  sys_seconds : ℚ
  deriving DecidableEq

/-- The clock readings taken around one clone creation: perf_counter
before and after, and the user and system fields of os.times before
and after. Times are modelled as rationals; perf_counter is a
monotonic clock, so its two readings satisfy t0_real less or equal
t1_real, taken as a hypothesis where needed. -/
structure ClockReadings where
  t0_real : ℚ
  t1_real : ℚ
  t0_user : ℚ
  t1_user : ℚ
  t0_sys : ℚ
  t1_sys : ℚ
  deriving DecidableEq

/-- time_create_clone of part2-final.py (lines 100 to 152), timing
part: the instances.insert call and the wait between the two readings
are modelled by the pollers above; the returned record holds the
differences of the clock readings. -/
def time_create_clone (instanceName : String) (clock : ClockReadings) : TimingRecord :=
  { instanceName := instanceName
    real_seconds := clock.t1_real - clock.t0_real
    user_seconds := clock.t1_user - clock.t0_user
    sys_seconds := clock.t1_sys - clock.t0_sys }

/-- The title line written first to TIMING.md. -/
def titleLine : String := "# Clone Timing Results\n"

/-- The header row of the timing table. -/
def headerRow : String := "| instance | real_seconds | user_seconds | sys_seconds |\n"

/-- The separator row of the timing table. -/
def separatorRow : String := "|---|---:|---:|---:|\n"

/-- One data row of the timing table; fmt stands for the fixed-point
float formatting of the source, which is outside the embedding. -/
def timingRow (fmt : ℚ → String) (r : TimingRecord) : String :=
  "| " ++ r.instanceName ++ " | " ++ fmt r.real_seconds ++ " | " ++
    fmt r.user_seconds ++ " | " ++ fmt r.sys_seconds ++ " |\n"

/-- write_timing_md of part2-final.py (lines 155 to 166), modelled as
the list of lines written to TIMING.md: the title line, the header
row, the separator row, then one data row per timing record. -/
def write_timing_md (fmt : ℚ → String) (results : List TimingRecord) : List String :=
  titleLine :: headerRow :: separatorRow :: results.map (timingRow fmt)

/-- The three clone names of the main loop of part2-final.py. -/
def part2_clone_names (base : String) : List String :=
  (List.range 3).map (fun i => base ++ "-clone-" ++ toString (i + 1))

/-- The timing records produced by the three sequential clone
creations of main of part2-final.py (lines 174 to 188), one per clone
name, given the clock readings observed around each creation. -/
def part2_results (base : String) (clocks : List ClockReadings) : List TimingRecord :=
  List.zipWith time_create_clone (part2_clone_names base) clocks

/-- Every record zipped out of monotone clock readings has a
non-negative real_seconds field. -/
theorem zipWith_time_nonneg (names : List String) (clocks : List ClockReadings)
    (hmono : ∀ c ∈ clocks, c.t0_real ≤ c.t1_real) :
    ∀ r ∈ List.zipWith time_create_clone names clocks, 0 ≤ r.real_seconds := by
  induction names generalizing clocks with
  | nil => intro r hr; simp at hr
  | cons n ns ih =>
    cases clocks with
    | nil => intro r hr; simp at hr
    | cons c cs =>
      intro r hr
      rcases List.mem_cons.mp hr with h | h
      · have : c.t0_real ≤ c.t1_real := hmono c (List.mem_cons_self c cs)
        rw [h]
        simpa [time_create_clone] using sub_nonneg.mpr this
      · exact ih cs (fun x hx => hmono x (List.mem_cons_of_mem c hx)) r h

/-- C8 (confirmed): with three clone creations whose perf_counter
readings are monotone, each of the three produced timing records has a
non-negative real_seconds, and the written file consists of the fixed
three-line table head followed by exactly one data row per record, so
it holds exactly one header row and one data row per clone. -/
theorem claim_C8 (base : String) (clocks : List ClockReadings) (fmt : ℚ → String)
    (hlen : clocks.length = 3) (hmono : ∀ c ∈ clocks, c.t0_real ≤ c.t1_real) :
    (part2_results base clocks).length = 3 ∧
    (∀ r ∈ part2_results base clocks, 0 ≤ r.real_seconds) ∧
    write_timing_md fmt (part2_results base clocks) =
      [titleLine, headerRow, separatorRow] ++
        (part2_results base clocks).map (timingRow fmt) ∧
    ((part2_results base clocks).map (timingRow fmt)).length = 3 := by
  have hl : (part2_results base clocks).length = 3 := by
    simp [part2_results, part2_clone_names, hlen]
  exact ⟨hl, zipWith_time_nonneg _ clocks hmono, rfl, by simp [hl]⟩

/-- C8 witness: three concrete monotone clock readings produce three
records with non-negative real_seconds, and a six-line file: the
three-line table head plus one data row per clone. -/
theorem claim_C8_witness :
    (part2_results "blog-instance"
      [⟨0, 41, 0, 1, 0, 1⟩, ⟨41, 80, 1, 2, 1, 2⟩, ⟨80, 120, 2, 3, 2, 3⟩]).length = 3 ∧
    (∀ r ∈ part2_results "blog-instance"
      [⟨0, 41, 0, 1, 0, 1⟩, ⟨41, 80, 1, 2, 1, 2⟩, ⟨80, 120, 2, 3, 2, 3⟩],
      0 ≤ r.real_seconds) ∧
    write_timing_md (fun _ => "0.000") (part2_results "blog-instance"
      [⟨0, 41, 0, 1, 0, 1⟩, ⟨41, 80, 1, 2, 1, 2⟩, ⟨80, 120, 2, 3, 2, 3⟩]) =
      [titleLine, headerRow, separatorRow] ++
        (part2_results "blog-instance"
          [⟨0, 41, 0, 1, 0, 1⟩, ⟨41, 80, 1, 2, 1, 2⟩, ⟨80, 120, 2, 3, 2, 3⟩]).map
          (timingRow (fun _ => "0.000")) ∧
    ((part2_results "blog-instance"
      [⟨0, 41, 0, 1, 0, 1⟩, ⟨41, 80, 1, 2, 1, 2⟩, ⟨80, 120, 2, 3, 2, 3⟩]).map
      (timingRow (fun _ => "0.000"))).length = 3 := by
  exact claim_C8 "blog-instance"
    [⟨0, 41, 0, 1, 0, 1⟩, ⟨41, 80, 1, 2, 1, 2⟩, ⟨80, 120, 2, 3, 2, 3⟩]
    (fun _ => "0.000") rfl (by decide)

end Lab5
